import Mathlib

/-!
Verification of the air-quality dashboard's client-side logic: the AQI
classifier and numeric-formatting helpers (three copies in the repository),
the SWR hook configurations, the `apiRequest` fetch wrapper, and a polling
cache model for the data-synchronization layer.

Sources embedded:
* `frontend/lib/air-quality-constants.ts` — namespace `Constants`
* `nextjs_utils_constants.js`             — namespace `NextUtils`
* `frontend2/script.js` (vanilla prototype) — namespace `Script`
* `frontend/lib/air-quality-api.ts`       — namespace `Api`
* `unnamed/part_006` (lib/api.js)         — namespace `PartApi`
-/

/-- Model of a JavaScript number as the classifier sees it: either `NaN` or an
exact rational. Every comparison against `NaN` is false, as in JS. The band
bounds are small integers and the AQI inputs of interest are exactly
representable, so rational comparisons agree with IEEE double comparisons on
this domain. -/
inductive JSNum where
  | nan : JSNum
  | num (q : ℚ) : JSNum
deriving DecidableEq

/-- JS `a >= b` where `b` is a numeric constant: false when `a` is `NaN`. -/
def JSNum.ge : JSNum → ℚ → Bool
  | .nan, _ => false
  | .num q, b => decide (b ≤ q)

/-- JS `a <= b` where `b` is a numeric constant: false when `a` is `NaN`. -/
def JSNum.le : JSNum → ℚ → Bool
  | .nan, _ => false
  | .num q, b => decide (q ≤ b)

/-- One entry of an `AQI_LEVELS` table. The presentation-only Tailwind token
fields (`bgColor`, `textColor`, `borderColor`, `glowColor`), which differ
between the copies and are opaque to all logic, are omitted. -/
structure AQILevel where
  min : ℚ
  max : ℚ
  color : String
  level : String
  description : String
deriving DecidableEq

/-- The loop test of every `getAQILevel` copy:
`aqi >= level.min && aqi <= level.max`. -/
def levelMatches (aqi : JSNum) (l : AQILevel) : Bool :=
  aqi.ge l.min && aqi.le l.max

namespace Constants

def good : AQILevel :=
  ⟨0, 50, "#00E400", "Good", "Air quality is satisfactory"⟩

def moderate : AQILevel :=
  ⟨51, 100, "#FFFF00", "Moderate", "Air quality is acceptable"⟩

def unhealthySensitive : AQILevel :=
  ⟨101, 150, "#FF7E00", "Unhealthy for Sensitive Groups",
    "Sensitive groups may experience health effects"⟩

def unhealthy : AQILevel :=
  ⟨151, 200, "#FF0000", "Unhealthy", "Everyone may experience health effects"⟩

def veryUnhealthy : AQILevel :=
  ⟨201, 300, "#8F3F97", "Very Unhealthy",
    "Health warnings of emergency conditions"⟩

def hazardous : AQILevel :=
  ⟨301, 500, "#7E0023", "Hazardous",
    "Health alert: everyone may experience serious health effects"⟩

/-- `AQI_LEVELS` as `Object.entries` enumerates it: insertion order, keyed. -/
def AQI_LEVELS : List (String × AQILevel) :=
  [("good", good), ("moderate", moderate),
   ("unhealthySensitive", unhealthySensitive), ("unhealthy", unhealthy),
   ("veryUnhealthy", veryUnhealthy), ("hazardous", hazardous)]

/-- `getAQILevel` of `air-quality-constants.ts`: first band whose inclusive
range contains `aqi`; falls back to `AQI_LEVELS.good`. -/
def getAQILevel (aqi : JSNum) : AQILevel :=
  match AQI_LEVELS.find? (fun kl => levelMatches aqi kl.2) with
  | some kl => kl.2
  | none => good

end Constants

namespace NextUtils

def good : AQILevel :=
  ⟨0, 50, "#00E400", "Good", "Air quality is satisfactory"⟩

def moderate : AQILevel :=
  ⟨51, 100, "#FFFF00", "Moderate", "Air quality is acceptable"⟩

def unhealthySensitive : AQILevel :=
  ⟨101, 150, "#FF7E00", "Unhealthy for Sensitive Groups",
    "Sensitive groups may experience health effects"⟩

def unhealthy : AQILevel :=
  ⟨151, 200, "#FF0000", "Unhealthy", "Everyone may experience health effects"⟩

def veryUnhealthy : AQILevel :=
  ⟨201, 300, "#8F3F97", "Very Unhealthy",
    "Health warnings of emergency conditions"⟩

def hazardous : AQILevel :=
  ⟨301, 500, "#7E0023", "Hazardous",
    "Health alert: everyone may experience serious health effects"⟩

def AQI_LEVELS : List (String × AQILevel) :=
  [("good", good), ("moderate", moderate),
   ("unhealthySensitive", unhealthySensitive), ("unhealthy", unhealthy),
   ("veryUnhealthy", veryUnhealthy), ("hazardous", hazardous)]

/-- `getAQILevel` of `nextjs_utils_constants.js`: same scan, same `good`
fallback as the TypeScript copy. -/
def getAQILevel (aqi : JSNum) : AQILevel :=
  match AQI_LEVELS.find? (fun kl => levelMatches aqi kl.2) with
  | some kl => kl.2
  | none => good

end NextUtils

namespace Script

def good : AQILevel :=
  ⟨0, 50, "#00E400", "Good", "Air quality is satisfactory"⟩

def moderate : AQILevel :=
  ⟨51, 100, "#FFFF00", "Moderate", "Air quality is acceptable"⟩

def unhealthySensitive : AQILevel :=
  ⟨101, 150, "#FF7E00", "Unhealthy for Sensitive Groups",
    "Sensitive groups may experience health effects"⟩

def unhealthy : AQILevel :=
  ⟨151, 200, "#FF0000", "Unhealthy", "Everyone may experience health effects"⟩

def veryUnhealthy : AQILevel :=
  ⟨201, 300, "#8F3F97", "Very Unhealthy",
    "Health warnings of emergency conditions"⟩

def hazardous : AQILevel :=
  ⟨301, 500, "#7E0023", "Hazardous",
    "Health alert: everyone may experience serious health effects"⟩

def AQI_LEVELS : List (String × AQILevel) :=
  [("good", good), ("moderate", moderate),
   ("unhealthySensitive", unhealthySensitive), ("unhealthy", unhealthy),
   ("veryUnhealthy", veryUnhealthy), ("hazardous", hazardous)]

/-- Result of the prototype's `getAQILevel`: on a match it returns
`{...level, key}` (the band's fields plus the entry key); the fallback
returns the plain `AQI_LEVELS.hazardous` object, which has no `key`. -/
structure AQIResult where
  band : AQILevel
  key : Option String
deriving DecidableEq

/-- `getAQILevel` of `frontend2/script.js`: same scan, but the fallback is
`AQI_LEVELS.hazardous`, not `good`. -/
def getAQILevel (aqi : JSNum) : AQIResult :=
  match AQI_LEVELS.find? (fun kl => levelMatches aqi kl.2) with
  | some kl => ⟨kl.2, some kl.1⟩
  | none => ⟨hazardous, none⟩

end Script

/-- Left-pads a digit string with zeros to length `d`. -/
def padZeros (d : ℕ) (s : String) : String :=
  String.mk (List.replicate (d - s.length) '0') ++ s

/-- Model of `Number.prototype.toFixed(d)` on a non-NaN value: the sign is
split off and the magnitude `a / den` is rounded to `d` decimal digits, ties
away from zero, per the ECMAScript algorithm (applied here to the exact
rational): `n = ⌊|q|·10^d + 1/2⌋ = ⌊(2·a·10^d + den) / (2·den)⌋`, computed
with integer arithmetic. -/
def toFixed (q : ℚ) (d : ℕ) : String :=
  let neg : Bool := decide (q < 0)
  let a : ℤ := if neg then -q.num else q.num
  let n : ℕ := ((2 * a * (10 : ℤ) ^ d + (q.den : ℤ)) / (2 * (q.den : ℤ))).toNat
  let sign : String := if neg then "-" else ""
  let ip : ℕ := n / 10 ^ d
  let fp : ℕ := n % 10 ^ d
  if d = 0 then sign ++ toString ip
  else sign ++ toString ip ++ "." ++ padZeros d (toString fp)

namespace Constants

/-- `formatNumber` of `air-quality-constants.ts`: `"--"` for `null` and
`undefined` (both mapped to `none`); otherwise
`parseFloat(num.toString()).toFixed(decimals)`, which round-trips finite
numbers and renders `NaN` as `"NaN"`. -/
def formatNumber (num : Option JSNum) (decimals : ℕ) : String :=
  match num with
  | none => "--"
  | some .nan => "NaN"
  | some (.num q) => toFixed q decimals

end Constants

namespace NextUtils

/-- `formatNumber` of `nextjs_utils_constants.js`: same null/undefined guard
returning `"--"`, then `parseFloat(num).toFixed(decimals)`. -/
def formatNumber (num : Option JSNum) (decimals : ℕ) : String :=
  match num with
  | none => "--"
  | some .nan => "NaN"
  | some (.num q) => toFixed q decimals

end NextUtils

namespace Script

/-- `formatNumber` of `frontend2/script.js`: no null/undefined guard —
`parseFloat(null)` and `parseFloat(undefined)` are `NaN`, and
`NaN.toFixed(d)` is the string `"NaN"`. -/
def formatNumber (num : Option JSNum) (decimals : ℕ) : String :=
  match num with
  | none => "NaN"
  | some .nan => "NaN"
  | some (.num q) => toFixed q decimals

end Script

namespace Api

/-- `REQUEST_TIMEOUT` of `air-quality-api.ts` (milliseconds). -/
def REQUEST_TIMEOUT : ℕ := 10000

/-- `NODE_ENV` as `apiRequest` branches on it. -/
inductive NodeEnv where
  | development
  | production
deriving DecidableEq

/-- Behavior of the backend for the single fetch an `apiRequest` call makes:
what the response is and the time `t` (ms after the request) it arrives.
`hangs` never responds. -/
inductive FetchBehavior where
  | respondsOk (t : ℕ) (payload : ℕ)
  | respondsHttpError (t : ℕ) (status : ℕ) (statusText : String)
  | networkFailure (t : ℕ) (message : String)
  | hangs
deriving DecidableEq

/-- Errors `apiRequest` can reject with. In the source all three are JS
`Error` objects distinguished by their message: the abort handler rethrows
`Error('Request timeout')`, a non-2xx response throws
``Error(`HTTP ${status}: ${statusText}`)``, and a fetch-level failure is
rethrown unchanged. -/
inductive ApiError where
  | timeout
  | httpStatus (status : ℕ) (statusText : String)
  | network (message : String)
deriving DecidableEq

/-- Message on the JS `Error` object of each error kind. -/
def ApiError.message : ApiError → String
  | .timeout => "Request timeout"
  | .httpStatus status statusText => "HTTP " ++ toString status ++ ": " ++ statusText
  | .network m => m

/-- Bodies a resolved `apiRequest` can carry: a backend JSON payload
(abstracted to a token) or one of the `getMockData` constants. -/
inductive ApiBody where
  | fromBackend (payload : ℕ)
  | mockForecastSingle
  | mockForecastAll
  | mockAlerts
  | mockEmpty
deriving DecidableEq

/-- Substring scan over the characters of `s`. -/
def charListIncl (pat : List Char) : List Char → Bool
  | [] => decide (pat = [])
  | c :: cs => pat.isPrefixOf (c :: cs) || charListIncl pat cs

/-- JS `String.prototype.includes` for a non-empty pattern. -/
def strIncludes (s pat : String) : Bool := charListIncl pat.data s.data

/-- `getMockData` of `air-quality-api.ts`: endpoint-dependent mock payload. -/
def getMockData (endpoint : String) : ApiBody :=
  if strIncludes endpoint "/forecast/" then .mockForecastSingle
  else if strIncludes endpoint "/forecast" then .mockForecastAll
  else if strIncludes endpoint "/alerts/" then .mockAlerts
  else .mockEmpty

/-- Outcome of an `apiRequest` call: resolves with a body or rejects. -/
inductive ApiResult where
  | ok (body : ApiBody)
  | error (e : ApiError)
deriving DecidableEq

/-- `apiRequest` of `air-quality-api.ts`, as a function of `NODE_ENV`, the
endpoint, and the backend's behavior for the one fetch the call performs.
A response completes the fetch iff it arrives strictly before the abort
timer (2000 ms in the development branch, `REQUEST_TIMEOUT` in production);
an aborted fetch rejects with `AbortError`. The development branch catches
every failure (non-2xx, network error, abort) and resolves with
`getMockData(endpoint)`; the production branch rethrows, converting
`AbortError` to `Error('Request timeout')`. -/
def apiRequest (env : NodeEnv) (endpoint : String) (b : FetchBehavior) : ApiResult :=
  match env with
  | .development =>
    match b with
    | .respondsOk t payload =>
        if t < 2000 then .ok (.fromBackend payload) else .ok (getMockData endpoint)
    | _ => .ok (getMockData endpoint)
  | .production =>
    match b with
    | .respondsOk t payload =>
        if t < REQUEST_TIMEOUT then .ok (.fromBackend payload) else .error .timeout
    | .respondsHttpError t status statusText =>
        if t < REQUEST_TIMEOUT then .error (.httpStatus status statusText)
        else .error .timeout
    | .networkFailure t message =>
        if t < REQUEST_TIMEOUT then .error (.network message) else .error .timeout
    | .hangs => .error .timeout

end Api

/-- The options object a hook passes to `useSWR`: revalidation interval,
focus-revalidation flag, and (only on `useForecast`) a deduping interval. -/
structure SWRConfig where
  refreshInterval : ℕ
  revalidateOnFocus : Bool
  dedupingInterval : Option ℕ
deriving DecidableEq

namespace Api

/-- Options of `useForecast` in `air-quality-api.ts`. -/
def useForecast_config : SWRConfig := ⟨5 * 60 * 1000, false, some 60000⟩

/-- Options of `useHistorical` in `air-quality-api.ts`. -/
def useHistorical_config : SWRConfig := ⟨15 * 60 * 1000, false, none⟩

/-- Options of `useAlerts` in `air-quality-api.ts`. -/
def useAlerts_config : SWRConfig := ⟨2 * 60 * 1000, true, none⟩

/-- Options of `useHealthRecommendations` in `air-quality-api.ts`. -/
def useHealthRecommendations_config : SWRConfig := ⟨10 * 60 * 1000, false, none⟩

/-- Options of `useSystemStatus` in `air-quality-api.ts`. -/
def useSystemStatus_config : SWRConfig := ⟨30 * 1000, true, none⟩

/-- Options of `useValidation` in `air-quality-api.ts`. -/
def useValidation_config : SWRConfig := ⟨30 * 60 * 1000, false, none⟩

end Api

namespace PartApi

/-- Options of `useForecast` in `unnamed/part_006` (lib/api.js). -/
def useForecast_config : SWRConfig := ⟨5 * 60 * 1000, false, some 60000⟩

/-- Options of `useHistorical` in `unnamed/part_006`. -/
def useHistorical_config : SWRConfig := ⟨15 * 60 * 1000, false, none⟩

/-- Options of `useAlerts` in `unnamed/part_006`. -/
def useAlerts_config : SWRConfig := ⟨2 * 60 * 1000, true, none⟩

/-- Options of `useHealthRecommendations` in `unnamed/part_006`. -/
def useHealthRecommendations_config : SWRConfig := ⟨10 * 60 * 1000, false, none⟩

/-- Options of `useSystemStatus` in `unnamed/part_006`. -/
def useSystemStatus_config : SWRConfig := ⟨30 * 1000, true, none⟩

/-- Options of `useValidation` in `unnamed/part_006`. -/
def useValidation_config : SWRConfig := ⟨30 * 60 * 1000, false, none⟩

end PartApi

/-- One row of the spec's required-revalidation table (§4.2 of spec.md),
in milliseconds. Written from the spec's words, to be compared with the
hook configurations taken from the source. -/
structure SpecRevalidation where
  intervalMs : ℕ
  onVisibilityRegain : Bool
deriving DecidableEq

namespace SpecTable

/-- Spec row: forecast — 5 minutes, no focus revalidation. -/
def forecast : SpecRevalidation := ⟨5 * 60 * 1000, false⟩

/-- Spec row: historical data — 15 minutes, no. -/
def historical : SpecRevalidation := ⟨15 * 60 * 1000, false⟩

/-- Spec row: alerts — 2 minutes, yes. -/
def alerts : SpecRevalidation := ⟨2 * 60 * 1000, true⟩

/-- Spec row: health recommendations — 10 minutes, no. -/
def healthRecommendations : SpecRevalidation := ⟨10 * 60 * 1000, false⟩

/-- Spec row: system status — 30 seconds, yes. -/
def systemStatus : SpecRevalidation := ⟨30 * 1000, true⟩

/-- Spec row: validation metrics — 30 minutes, no. -/
def validationMetrics : SpecRevalidation := ⟨30 * 60 * 1000, false⟩

end SpecTable

namespace PollingCache

/-- Modelled from the spec: the polling data cache itself is the external
`useSWR` library, whose implementation is not in the repository's source
tree — only its configuration and consumers are. This renders the spec's
§3 `CacheEntry`: `data` is the last successfully fetched value (abstracted
to a token), `error` the last fetch error, `lastFetchedAt` the completion
time of the last successful fetch, and `inFlight` the ids of outstanding
fetches for the key. -/
structure CacheEntry where
  data : Option ℕ
  error : Option String
  lastFetchedAt : Option ℕ
  inFlight : List ℕ
deriving DecidableEq

/-- Modelled from the spec: entry state before any fetch for the key. -/
def initEntry : CacheEntry := ⟨none, none, none, []⟩

/-- Modelled from the spec: the events that mutate a cache entry —
subscription, manual refresh, a raced superseding fetch start (spec §5:
a newer fetch for the same key starts, cancelling the outstanding one),
and completion of a tagged request with a value or an error. -/
inductive CacheOp where
  | subscribe (reqId : ℕ)
  | refresh (reqId : ℕ)
  | supersede (reqId : ℕ)
  | completeOk (reqId : ℕ) (v : ℕ) (t : ℕ)
  | completeErr (reqId : ℕ) (msg : String)
deriving DecidableEq

/-- Modelled from the spec (§4.2, §5): one transition of a cache entry;
the `Bool` reports whether this operation started a network fetch.
Subscribe and refresh de-duplicate against an outstanding fetch; subscribe
is also a no-op on a cache hit. A completion applies only if its request id
is still the outstanding one (last-request-wins: a superseded request's
result is discarded). Success overwrites `data`, clears `error` and records
the fetch time; failure sets `error` and leaves `data` untouched. -/
def step (e : CacheEntry) : CacheOp → CacheEntry × Bool
  | .subscribe reqId =>
      if e.inFlight ≠ [] then (e, false)
      else if e.data.isSome then (e, false)
      else ({ e with inFlight := [reqId] }, true)
  | .refresh reqId =>
      if e.inFlight ≠ [] then (e, false)
      else ({ e with inFlight := [reqId] }, true)
  | .supersede reqId => ({ e with inFlight := [reqId] }, true)
  | .completeOk reqId v t =>
      if e.inFlight = [reqId] then (⟨some v, none, some t, []⟩, false)
      else (e, false)
  | .completeErr reqId msg =>
      if e.inFlight = [reqId] then ({ e with error := some msg, inFlight := [] }, false)
      else (e, false)

/-- Modelled from the spec: run a sequence of cache events. -/
def run (e : CacheEntry) (ops : List CacheOp) : CacheEntry :=
  ops.foldl (fun acc op => (step acc op).1) e

/-- Modelled from the spec: how many network fetches a sequence of cache
events starts. -/
def callCount (e : CacheEntry) (ops : List CacheOp) : ℕ :=
  (ops.foldl (fun acc op =>
    let s := step acc.1 op
    (s.1, acc.2 + (if s.2 then 1 else 0))) (e, 0)).2

/-- Modelled from the spec: the `isError` flag consumers observe. -/
def isError (e : CacheEntry) : Bool := e.error.isSome

end PollingCache

/-- C1 (counterexample): the claim requires every copy of the classifier to
return the "Good" band on out-of-domain input, but the vanilla-JS
prototype's `getAQILevel` returns the "Hazardous" band at `aqi = -10`. -/
theorem c1_script_fallback_not_good :
    (Script.getAQILevel (JSNum.num (-10))).band = Script.hazardous ∧
    (Script.getAQILevel (JSNum.num (-10))).band.level ≠ "Good" := by
  decide

/-- C1 (amended): on NaN, negative, or greater-than-500 input, the two
Next.js copies of the classifier (`air-quality-constants.ts` and
`nextjs_utils_constants.js`) return the "Good" band, while the vanilla-JS
prototype (`frontend2/script.js`) returns the "Hazardous" band. -/
theorem c1_out_of_domain_fallback_per_copy :
    (Constants.getAQILevel .nan = Constants.good ∧
     NextUtils.getAQILevel .nan = NextUtils.good ∧
     Script.getAQILevel .nan = ⟨Script.hazardous, none⟩) ∧
    (∀ q : ℚ, q < 0 ∨ 500 < q →
      Constants.getAQILevel (JSNum.num q) = Constants.good ∧
      NextUtils.getAQILevel (JSNum.num q) = NextUtils.good ∧
      Script.getAQILevel (JSNum.num q) = ⟨Script.hazardous, none⟩) := by
  constructor
  · exact ⟨by decide, by decide, by decide⟩
  · intro q h
    have hC : Constants.AQI_LEVELS.find?
        (fun kl => levelMatches (JSNum.num q) kl.2) = none := by
      rw [List.find?_eq_none]
      intro kl hkl
      rcases h with h | h <;> fin_cases hkl <;>
        simp only [levelMatches, JSNum.ge, JSNum.le, Bool.and_eq_true,
          decide_eq_true_eq, Constants.good, Constants.moderate,
          Constants.unhealthySensitive, Constants.unhealthy,
          Constants.veryUnhealthy, Constants.hazardous] <;>
        rintro ⟨h1, h2⟩ <;> linarith
    have hN : NextUtils.AQI_LEVELS.find?
        (fun kl => levelMatches (JSNum.num q) kl.2) = none := by
      rw [List.find?_eq_none]
      intro kl hkl
      rcases h with h | h <;> fin_cases hkl <;>
        simp only [levelMatches, JSNum.ge, JSNum.le, Bool.and_eq_true,
          decide_eq_true_eq, NextUtils.good, NextUtils.moderate,
          NextUtils.unhealthySensitive, NextUtils.unhealthy,
          NextUtils.veryUnhealthy, NextUtils.hazardous] <;>
        rintro ⟨h1, h2⟩ <;> linarith
    have hS : Script.AQI_LEVELS.find?
        (fun kl => levelMatches (JSNum.num q) kl.2) = none := by
      rw [List.find?_eq_none]
      intro kl hkl
      rcases h with h | h <;> fin_cases hkl <;>
        simp only [levelMatches, JSNum.ge, JSNum.le, Bool.and_eq_true,
          decide_eq_true_eq, Script.good, Script.moderate,
          Script.unhealthySensitive, Script.unhealthy,
          Script.veryUnhealthy, Script.hazardous] <;>
        rintro ⟨h1, h2⟩ <;> linarith
    exact ⟨by simp [Constants.getAQILevel, hC],
           by simp [NextUtils.getAQILevel, hN],
           by simp [Script.getAQILevel, hS]⟩

/-- C1 witness: the amended theorem applied at `aqi = -10`. -/
theorem c1_out_of_domain_fallback_witness :
    ((-10 : ℚ) < 0 ∨ (500 : ℚ) < -10) ∧
    (Constants.getAQILevel (JSNum.num (-10)) = Constants.good ∧
     NextUtils.getAQILevel (JSNum.num (-10)) = NextUtils.good ∧
     Script.getAQILevel (JSNum.num (-10)) = ⟨Script.hazardous, none⟩) :=
  ⟨Or.inl (by norm_num),
   c1_out_of_domain_fallback_per_copy.2 (-10) (Or.inl (by norm_num))⟩

set_option maxRecDepth 100000 in
/-- C2: for every integer `aqi` in `0..500`, exactly one entry of the static
band table matches (`min ≤ aqi ≤ max`), and `getAQILevel` returns exactly
that band: the matching sublist of the table is the one-element list holding
the returned band. -/
theorem c2_bands_partition_and_lookup (aqi : ℕ) (h : aqi ≤ 500) :
    (Constants.AQI_LEVELS.filter
        (fun kl => levelMatches (JSNum.num (aqi : ℚ)) kl.2)).map Prod.snd
      = [Constants.getAQILevel (JSNum.num (aqi : ℚ))] := by
  have key : ∀ n : Fin 501,
      (Constants.AQI_LEVELS.filter
          (fun kl => levelMatches (JSNum.num (n.val : ℚ)) kl.2)).map Prod.snd
        = [Constants.getAQILevel (JSNum.num (n.val : ℚ))] := by decide
  simpa using key ⟨aqi, by omega⟩

/-- C2 witness: the partition-and-lookup theorem applied at `aqi = 250`. -/
theorem c2_bands_partition_witness :
    (250 : ℕ) ≤ 500 ∧
    (Constants.AQI_LEVELS.filter
        (fun kl => levelMatches (JSNum.num ((250 : ℕ) : ℚ)) kl.2)).map Prod.snd
      = [Constants.getAQILevel (JSNum.num ((250 : ℕ) : ℚ))] :=
  ⟨by norm_num, c2_bands_partition_and_lookup 250 (by norm_num)⟩

/-- C3 (counterexample): the claim requires every copy of `formatNumber` to
render null as `"--"`, but the vanilla-JS prototype's `formatNumber(null, 1)`
is `"NaN"` (`parseFloat(null)` is `NaN` and `NaN.toFixed(1)` is `"NaN"`). -/
theorem c3_script_null_not_dashes :
    Script.formatNumber none 1 = "NaN" ∧ Script.formatNumber none 1 ≠ "--" := by
  decide

/-- C3 (amended): the two Next.js copies of `formatNumber` return `"--"` on
null/undefined and the fixed-decimal rendering otherwise (in particular
`formatNumber(42.567, 1) = "42.6"`); the vanilla-JS prototype agrees on
numeric input but returns `"NaN"`, not `"--"`, on null/undefined. -/
theorem c3_formatNumber_contract_per_copy :
    Constants.formatNumber none 1 = "--" ∧
    Constants.formatNumber (some (JSNum.num (mkRat 42567 1000))) 1 = "42.6" ∧
    NextUtils.formatNumber none 1 = "--" ∧
    NextUtils.formatNumber (some (JSNum.num (mkRat 42567 1000))) 1 = "42.6" ∧
    Script.formatNumber (some (JSNum.num (mkRat 42567 1000))) 1 = "42.6" ∧
    Script.formatNumber none 1 = "NaN" := by
  decide

/-- C9: every value strictly inside one of the five inter-band gaps
(50,51), (100,101), (150,151), (200,201), (300,301) matches no band, so the
scan of `getAQILevel` in `air-quality-constants.ts` falls through and
returns the "Good" band. -/
theorem c9_gap_values_fall_through (q : ℚ)
    (h : (50 < q ∧ q < 51) ∨ (100 < q ∧ q < 101) ∨ (150 < q ∧ q < 151) ∨
      (200 < q ∧ q < 201) ∨ (300 < q ∧ q < 301)) :
    Constants.AQI_LEVELS.find? (fun kl => levelMatches (JSNum.num q) kl.2) = none ∧
    Constants.getAQILevel (JSNum.num q) = Constants.good := by
  have hnone : Constants.AQI_LEVELS.find?
      (fun kl => levelMatches (JSNum.num q) kl.2) = none := by
    rw [List.find?_eq_none]
    intro kl hkl
    rcases h with ⟨ha, hb⟩ | ⟨ha, hb⟩ | ⟨ha, hb⟩ | ⟨ha, hb⟩ | ⟨ha, hb⟩ <;>
      fin_cases hkl <;>
      simp only [levelMatches, JSNum.ge, JSNum.le, Bool.and_eq_true,
        decide_eq_true_eq, Constants.good, Constants.moderate,
        Constants.unhealthySensitive, Constants.unhealthy,
        Constants.veryUnhealthy, Constants.hazardous] <;>
      rintro ⟨h1, h2⟩ <;> linarith
  exact ⟨hnone, by simp [Constants.getAQILevel, hnone]⟩

/-- C9 witness: the gap theorem applied at `aqi = 50.5`. -/
theorem c9_gap_values_witness :
    ((50 < mkRat 101 2 ∧ mkRat 101 2 < 51) ∨
      (100 < mkRat 101 2 ∧ mkRat 101 2 < 101) ∨
      (150 < mkRat 101 2 ∧ mkRat 101 2 < 151) ∨
      (200 < mkRat 101 2 ∧ mkRat 101 2 < 201) ∨
      (300 < mkRat 101 2 ∧ mkRat 101 2 < 301)) ∧
    (Constants.AQI_LEVELS.find?
        (fun kl => levelMatches (JSNum.num (mkRat 101 2)) kl.2) = none ∧
     Constants.getAQILevel (JSNum.num (mkRat 101 2)) = Constants.good) :=
  ⟨Or.inl ⟨by decide, by decide⟩,
   c9_gap_values_fall_through (mkRat 101 2) (Or.inl ⟨by decide, by decide⟩)⟩

/-- C4: both copies of the hook layer configure exactly the revalidation
intervals and visibility-regain flags of the spec's table — forecast
5 min/no, historical 15 min/no, alerts 2 min/yes, health recommendations
10 min/no, system status 30 s/yes, validation metrics 30 min/no. -/
theorem c4_hook_configs_match_spec_table :
    (Api.useForecast_config.refreshInterval = SpecTable.forecast.intervalMs ∧
     Api.useForecast_config.revalidateOnFocus = SpecTable.forecast.onVisibilityRegain) ∧
    (Api.useHistorical_config.refreshInterval = SpecTable.historical.intervalMs ∧
     Api.useHistorical_config.revalidateOnFocus = SpecTable.historical.onVisibilityRegain) ∧
    (Api.useAlerts_config.refreshInterval = SpecTable.alerts.intervalMs ∧
     Api.useAlerts_config.revalidateOnFocus = SpecTable.alerts.onVisibilityRegain) ∧
    (Api.useHealthRecommendations_config.refreshInterval
        = SpecTable.healthRecommendations.intervalMs ∧
     Api.useHealthRecommendations_config.revalidateOnFocus
        = SpecTable.healthRecommendations.onVisibilityRegain) ∧
    (Api.useSystemStatus_config.refreshInterval = SpecTable.systemStatus.intervalMs ∧
     Api.useSystemStatus_config.revalidateOnFocus = SpecTable.systemStatus.onVisibilityRegain) ∧
    (Api.useValidation_config.refreshInterval = SpecTable.validationMetrics.intervalMs ∧
     Api.useValidation_config.revalidateOnFocus
        = SpecTable.validationMetrics.onVisibilityRegain) ∧
    (PartApi.useForecast_config.refreshInterval = SpecTable.forecast.intervalMs ∧
     PartApi.useForecast_config.revalidateOnFocus = SpecTable.forecast.onVisibilityRegain) ∧
    (PartApi.useHistorical_config.refreshInterval = SpecTable.historical.intervalMs ∧
     PartApi.useHistorical_config.revalidateOnFocus
        = SpecTable.historical.onVisibilityRegain) ∧
    (PartApi.useAlerts_config.refreshInterval = SpecTable.alerts.intervalMs ∧
     PartApi.useAlerts_config.revalidateOnFocus = SpecTable.alerts.onVisibilityRegain) ∧
    (PartApi.useHealthRecommendations_config.refreshInterval
        = SpecTable.healthRecommendations.intervalMs ∧
     PartApi.useHealthRecommendations_config.revalidateOnFocus
        = SpecTable.healthRecommendations.onVisibilityRegain) ∧
    (PartApi.useSystemStatus_config.refreshInterval = SpecTable.systemStatus.intervalMs ∧
     PartApi.useSystemStatus_config.revalidateOnFocus
        = SpecTable.systemStatus.onVisibilityRegain) ∧
    (PartApi.useValidation_config.refreshInterval = SpecTable.validationMetrics.intervalMs ∧
     PartApi.useValidation_config.revalidateOnFocus
        = SpecTable.validationMetrics.onVisibilityRegain) := by
  decide

/-- C5 (counterexample): not every fetch attempt is bounded by a 10-second
timeout surfaced as a failure — in development mode a hanging backend is
aborted after 2 seconds and the call resolves with mock data instead of
rejecting with the timeout error. -/
theorem c5_counterexample_dev_mode :
    Api.apiRequest .development "/health" .hangs = .ok .mockEmpty ∧
    Api.apiRequest .development "/health" .hangs ≠ .error .timeout := by
  decide

/-- C5 (amended): in production mode every fetch attempt is bounded by the
fixed 10-second `REQUEST_TIMEOUT`; a fetch not completing within the bound
is aborted and rejects with `Error('Request timeout')`, distinguishable from
HTTP-status and network errors, and the call makes no further attempt. In
development mode the bound is 2 seconds and a timed-out fetch resolves with
mock data instead of rejecting. -/
theorem c5_production_timeout_policy :
    (∀ e, Api.apiRequest .production e .hangs = .error .timeout) ∧
    (∀ e t p, Api.REQUEST_TIMEOUT ≤ t →
      Api.apiRequest .production e (.respondsOk t p) = .error .timeout) ∧
    (∀ e t s st, Api.REQUEST_TIMEOUT ≤ t →
      Api.apiRequest .production e (.respondsHttpError t s st) = .error .timeout) ∧
    (∀ e t m, Api.REQUEST_TIMEOUT ≤ t →
      Api.apiRequest .production e (.networkFailure t m) = .error .timeout) ∧
    (∀ s st, Api.ApiError.timeout ≠ .httpStatus s st) ∧
    (∀ m, Api.ApiError.timeout ≠ .network m) ∧
    (∀ e b, Api.apiRequest .development e b ≠ .error .timeout) ∧
    Api.REQUEST_TIMEOUT = 10000 := by
  refine ⟨?_, ?_, ?_, ?_, ?_, ?_, ?_, rfl⟩
  · exact fun e => rfl
  · intro e t p ht
    simp only [Api.apiRequest]
    rw [if_neg (by omega)]
  · intro e t s st ht
    simp only [Api.apiRequest]
    rw [if_neg (by omega)]
  · intro e t m ht
    simp only [Api.apiRequest]
    rw [if_neg (by omega)]
  · intro s st h
    cases h
  · intro m h
    cases h
  · intro e b
    cases b <;> simp only [Api.apiRequest] <;> (try split) <;> simp

/-- C5 witness: the amended theorem applied to a production fetch whose
response would arrive at exactly 10000 ms. -/
theorem c5_production_timeout_witness :
    Api.REQUEST_TIMEOUT ≤ 10000 ∧
    Api.apiRequest .production "/health" (.respondsOk 10000 0) = .error .timeout :=
  ⟨by norm_num [Api.REQUEST_TIMEOUT],
   c5_production_timeout_policy.2.1 "/health" 10000 0
     (by norm_num [Api.REQUEST_TIMEOUT])⟩

/-- C10: in development mode `apiRequest` never rejects — any backend
failure, non-2xx response, network error or hang (after the shortened
2-second bound) resolves with the endpoint-dependent mock data, and only a
2xx response arriving within 2 seconds is passed through. -/
theorem c10_dev_mode_never_rejects :
    (∀ e b, ∃ body, Api.apiRequest .development e b = .ok body) ∧
    (∀ e t s st,
      Api.apiRequest .development e (.respondsHttpError t s st)
        = .ok (Api.getMockData e)) ∧
    (∀ e t m,
      Api.apiRequest .development e (.networkFailure t m) = .ok (Api.getMockData e)) ∧
    (∀ e, Api.apiRequest .development e .hangs = .ok (Api.getMockData e)) ∧
    (∀ e t p, 2000 ≤ t →
      Api.apiRequest .development e (.respondsOk t p) = .ok (Api.getMockData e)) ∧
    (∀ e t p, t < 2000 →
      Api.apiRequest .development e (.respondsOk t p) = .ok (.fromBackend p)) := by
  refine ⟨?_, fun e t s st => rfl, fun e t m => rfl, fun e => rfl, ?_, ?_⟩
  · intro e b
    cases b with
    | respondsOk t p =>
        by_cases h : t < 2000
        · exact ⟨.fromBackend p, by simp [Api.apiRequest, h]⟩
        · exact ⟨Api.getMockData e, by simp [Api.apiRequest, h]⟩
    | respondsHttpError t s st => exact ⟨Api.getMockData e, rfl⟩
    | networkFailure t m => exact ⟨Api.getMockData e, rfl⟩
    | hangs => exact ⟨Api.getMockData e, rfl⟩
  · intro e t p ht
    simp only [Api.apiRequest]
    rw [if_neg (by omega)]
  · intro e t p ht
    simp only [Api.apiRequest]
    rw [if_pos ht]

/-- C10 witness: the never-rejects theorem applied to a development fetch
whose backend responds only after 2500 ms. -/
theorem c10_dev_mode_witness :
    (2000 : ℕ) ≤ 2500 ∧
    Api.apiRequest .development "/forecast/washington_dc" (.respondsOk 2500 7)
      = .ok (Api.getMockData "/forecast/washington_dc") :=
  ⟨by norm_num,
   c10_dev_mode_never_rejects.2.2.2.2.1 "/forecast/washington_dc" 2500 7 (by norm_num)⟩

/-- Helper: one cache transition keeps at most one fetch in flight. -/
theorem PollingCache.step_inFlight_le (e : PollingCache.CacheEntry)
    (op : PollingCache.CacheOp) (h : e.inFlight.length ≤ 1) :
    ((PollingCache.step e op).1).inFlight.length ≤ 1 := by
  cases op <;> simp only [PollingCache.step] <;> (try split_ifs) <;> simp_all

/-- Helper: running any event sequence keeps at most one fetch in flight. -/
theorem PollingCache.run_inFlight_le :
    ∀ (ops : List PollingCache.CacheOp) (e : PollingCache.CacheEntry),
      e.inFlight.length ≤ 1 → (PollingCache.run e ops).inFlight.length ≤ 1
  | [], _, h => h
  | op :: ops, e, h =>
      PollingCache.run_inFlight_le ops _ (PollingCache.step_inFlight_le e op h)

/-- C6 (spec-modelled): a failed fetch completion sets `error` and leaves
`data` untouched — in fact no failure ever changes `data` — and consumers
observe `isError = true` until the next successful fetch, the only event
that clears `error`. -/
theorem c6_failure_sets_error_keeps_data (e : PollingCache.CacheEntry)
    (reqId : ℕ) (msg : String) (h : e.inFlight = [reqId]) :
    ((PollingCache.step e (.completeErr reqId msg)).1.data = e.data ∧
     (PollingCache.step e (.completeErr reqId msg)).1.error = some msg ∧
     PollingCache.isError (PollingCache.step e (.completeErr reqId msg)).1 = true) ∧
    (∀ e' : PollingCache.CacheEntry, ∀ rid : ℕ, ∀ m : String,
      (PollingCache.step e' (.completeErr rid m)).1.data = e'.data) ∧
    (∀ e' : PollingCache.CacheEntry, ∀ op : PollingCache.CacheOp,
      PollingCache.isError e' = true →
      PollingCache.isError (PollingCache.step e' op).1 = false →
      ∃ rid v t, op = PollingCache.CacheOp.completeOk rid v t) := by
  refine ⟨⟨?_, ?_, ?_⟩, ?_, ?_⟩
  · simp [PollingCache.step, h]
  · simp [PollingCache.step, h]
  · simp [PollingCache.step, PollingCache.isError, h]
  · intro e' rid m
    simp only [PollingCache.step]
    split_ifs <;> rfl
  · intro e' op h1 h2
    cases op with
    | completeOk rid v t => exact ⟨rid, v, t, rfl⟩
    | subscribe rid =>
        exfalso
        revert h2
        simp only [PollingCache.step, PollingCache.isError] at h1 ⊢
        split_ifs <;> simp_all
    | refresh rid =>
        exfalso
        revert h2
        simp only [PollingCache.step, PollingCache.isError] at h1 ⊢
        split_ifs <;> simp_all
    | supersede rid =>
        exfalso
        revert h2
        simp only [PollingCache.step, PollingCache.isError] at h1 ⊢
        simp_all
    | completeErr rid m =>
        exfalso
        revert h2
        simp only [PollingCache.step, PollingCache.isError] at h1 ⊢
        split_ifs <;> simp_all

/-- C6 witness: the failure-policy theorem applied to an entry holding data
`5` with request `3` in flight, failing with a timeout message. -/
theorem c6_failure_policy_witness :
    (PollingCache.CacheEntry.mk (some 5) none (some 0) [3]).inFlight = [3] ∧
    ((PollingCache.step ⟨some 5, none, some 0, [3]⟩
        (.completeErr 3 "Request timeout")).1.data = some 5 ∧
     (PollingCache.step ⟨some 5, none, some 0, [3]⟩
        (.completeErr 3 "Request timeout")).1.error = some "Request timeout" ∧
     PollingCache.isError (PollingCache.step ⟨some 5, none, some 0, [3]⟩
        (.completeErr 3 "Request timeout")).1 = true) := by
  have base := c6_failure_sets_error_keeps_data ⟨some 5, none, some 0, [3]⟩ 3
    "Request timeout" rfl
  exact ⟨rfl, base.1⟩

/-- C7 (spec-modelled): with two overlapping fetches for one key where the
first-started request (`id1`) resolves after the later-started one (`id2`),
the entry's final `data` is the later-started request's value `v2`: result
application follows request-start order, not response-arrival order. -/
theorem c7_last_request_wins (d0 : Option ℕ) (err0 : Option String)
    (lf0 : Option ℕ) (id1 id2 v1 v2 t1 t2 : ℕ) (hne : id1 ≠ id2) :
    (PollingCache.run ⟨d0, err0, lf0, []⟩
        [.refresh id1, .supersede id2, .completeOk id2 v2 t2,
         .completeOk id1 v1 t1]).data = some v2 := by
  simp [PollingCache.run, PollingCache.step]

/-- C7 witness: the last-request-wins theorem at request ids 1, 2 with
values 10 (stale, late) and 20 (fresh, early). -/
theorem c7_last_request_wins_witness :
    (1 : ℕ) ≠ 2 ∧
    (PollingCache.run ⟨none, none, none, []⟩
        [.refresh 1, .supersede 2, .completeOk 2 20 5,
         .completeOk 1 10 9]).data = some 20 :=
  ⟨by decide, c7_last_request_wins none none none 1 2 10 20 9 5 (by decide)⟩

/-- C8 (spec-modelled): at most one fetch is in flight per key at any time
along any event sequence; a subscription or a manual refresh during an
outstanding fetch starts no network call; and an initial fetch followed by
two quick refreshes makes exactly one network call in total. -/
theorem c8_single_flight_dedup :
    (∀ ops : List PollingCache.CacheOp,
      (PollingCache.run PollingCache.initEntry ops).inFlight.length ≤ 1) ∧
    (∀ (e : PollingCache.CacheEntry) (reqId : ℕ), e.inFlight ≠ [] →
      (PollingCache.step e (.subscribe reqId)).2 = false) ∧
    (∀ (e : PollingCache.CacheEntry) (reqId : ℕ), e.inFlight ≠ [] →
      (PollingCache.step e (.refresh reqId)).2 = false) ∧
    (∀ id0 id1 id2 : ℕ, PollingCache.callCount PollingCache.initEntry
      [.refresh id0, .refresh id1, .refresh id2] = 1) := by
  refine ⟨?_, ?_, ?_, ?_⟩
  · intro ops
    exact PollingCache.run_inFlight_le ops PollingCache.initEntry
      (by simp [PollingCache.initEntry])
  · intro e reqId h
    simp [PollingCache.step, h]
  · intro e reqId h
    simp [PollingCache.step, h]
  · intro id0 id1 id2
    simp [PollingCache.callCount, PollingCache.step, PollingCache.initEntry]

/-- C8 witness: the de-duplication theorem applied to an entry with request
`7` outstanding and to the concrete refresh sequence `1, 2, 3`. -/
theorem c8_single_flight_witness :
    (PollingCache.CacheEntry.mk none none none [7]).inFlight ≠ [] ∧
    (PollingCache.step ⟨none, none, none, [7]⟩ (.subscribe 8)).2 = false ∧
    (PollingCache.step ⟨none, none, none, [7]⟩ (.refresh 8)).2 = false ∧
    PollingCache.callCount PollingCache.initEntry
      [.refresh 1, .refresh 2, .refresh 3] = 1 :=
  ⟨by decide,
   c8_single_flight_dedup.2.1 ⟨none, none, none, [7]⟩ 8 (by decide),
   c8_single_flight_dedup.2.2.1 ⟨none, none, none, [7]⟩ 8 (by decide),
   c8_single_flight_dedup.2.2.2 1 2 3⟩
